import Mathlib

/-!
Shallow embedding of the `djldc/invest` backend (Express + Neon Postgres).

The store is modelled as a list of user rows (`Store`); each exported
function of `src/db/index.js` that the claims touch becomes a pure Lean
function from the old store to the new store (plus its returned row where
the route inspects it).  Route handlers from `src/routes/*.js` become pure
functions from their request data and the store to an HTTP-level result
and the new store.  External libraries (jwt, bcrypt, Stripe signature
verification) are modelled as abstract inputs: a request's token is given
already classified (missing / failing verification / verified claims), the
bcrypt comparison is an arbitrary boolean function, and the outcome of
Stripe's `constructEvent` signature check is a boolean.
-/

/-- A row of the `users` table (see `initDB` in `src/db/index.js`).
Timestamps are abstract `Nat` ticks; nullable text columns are `Option`. -/
structure User where
  id : Nat
  email : String
  name : Option String
  picture : Option String
  provider : String
  provider_id : String
  password_hash : Option String
  subscription_status : String
  is_admin : Bool
  has_book : Bool
  stripe_customer_id : Option String
  created_at : Nat
  last_login : Nat
deriving Repr, DecidableEq

/-- The `users` table. The `email UNIQUE` constraint is carried as a
hypothesis (`countEmail db e ≤ 1`) where a claim needs it. -/
abbrev Store := List User

/-- `SELECT ... FROM users WHERE id = x` returning at most one row
(`getUserById` in `src/db/index.js`). -/
def findById (db : Store) (id : Nat) : Option User :=
  List.find? (fun u => u.id = id) db

/-- `SELECT ... FROM users WHERE email = e` returning at most one row
(`getUserByEmail` in `src/db/index.js`). -/
def findByEmail (db : Store) (e : String) : Option User :=
  List.find? (fun u => u.email = e) db

/-- Number of rows holding a given email (used to state the UNIQUE
constraint on `users.email`). -/
def countEmail (db : Store) (e : String) : Nat :=
  (List.filter (fun u => u.email = e) db).length

/-- JavaScript string truthiness for an optional request field:
`undefined`/`null` and the empty string are falsy. -/
def strTruthy : Option String → Bool
  | some s => s ≠ ""
  | none => false

/-- Profile extracted from a verified Google or Apple identity token
(the argument object of `upsertUser`). -/
structure OAuthProfile where
  email : String
  name : Option String
  picture : Option String
  provider : String
  provider_id : String
deriving Repr, DecidableEq

/-- Row refresh applied by `upsertUser`'s `ON CONFLICT (email) DO UPDATE`:
only `name`, `picture` and `last_login` are assigned. -/
def refreshRow (p : OAuthProfile) (now : Nat) (u : User) : User :=
  if u.email = p.email then
    { u with name := p.name, picture := p.picture, last_login := now }
  else u

/-- Fresh row built by `upsertUser`'s INSERT branch; unset columns take the
table defaults (`subscription_status 'free'`, `is_admin FALSE`,
`has_book FALSE`, NULL `password_hash` / `stripe_customer_id`). -/
def freshOAuthUser (p : OAuthProfile) (freshId now : Nat) : User :=
  { id := freshId, email := p.email, name := p.name, picture := p.picture,
    provider := p.provider, provider_id := p.provider_id,
    password_hash := none, subscription_status := "free",
    is_admin := false, has_book := false, stripe_customer_id := none,
    created_at := now, last_login := now }

/-- `upsertUser` from `src/db/index.js`: INSERT the profile, or on email
conflict refresh `name`/`picture`/`last_login`; RETURNING the row. -/
def upsertUser (p : OAuthProfile) (freshId now : Nat) (db : Store) : User × Store :=
  match List.find? (fun u => u.email = p.email) db with
  | some u => (refreshRow p now u, List.map (refreshRow p now) db)
  | none =>
      let u := freshOAuthUser p freshId now
      (u, db ++ [u])

/-- `createEmailUser` from `src/db/index.js`: INSERT with provider 'email',
`provider_id` equal to the email, and the supplied password hash. -/
def createEmailUser (e uname phash : String) (freshId now : Nat) : User :=
  { id := freshId, email := e, name := some uname, picture := none,
    provider := "email", provider_id := e,
    password_hash := some phash, subscription_status := "free",
    is_admin := false, has_book := false, stripe_customer_id := none,
    created_at := now, last_login := now }

/-- The object `{ subscription_status, is_admin, has_book }` destructured by
`updateUser`; `none` is an absent (`undefined`) field. -/
structure AdminUpdate where
  subscription_status : Option String
  is_admin : Option Bool
  has_book : Option Bool
deriving Repr, DecidableEq

/-- `updateUser` from `src/db/index.js`: one UPDATE statement per supplied
field, each `WHERE id = x` and RETURNING the row; `rows` keeps the result
of the last executed statement, and the function returns `null` when no
field was supplied or when the id matched no row. -/
def updateUser (id : Nat) (upd : AdminUpdate) (db : Store) : Option User × Store :=
  let db1 := match upd.subscription_status with
    | some s => List.map (fun u => if u.id = id then { u with subscription_status := s } else u) db
    | none => db
  let db2 := match upd.is_admin with
    | some b => List.map (fun u => if u.id = id then { u with is_admin := b } else u) db1
    | none => db1
  let db3 := match upd.has_book with
    | some b => List.map (fun u => if u.id = id then { u with has_book := b } else u) db2
    | none => db2
  if upd.subscription_status.isSome || upd.is_admin.isSome || upd.has_book.isSome then
    (findById db3 id, db3)
  else (none, db3)

/-- The `updates` object passed to `updateUserStripe`. -/
structure StripeUpdates where
  stripe_customer_id : Option String
  has_book : Option Bool
  subscription_status : Option String
deriving Repr, DecidableEq

/-- Pointwise effect on one row of the UPDATE statements issued by
`updateUserStripe`, in the order the source executes them
(`stripe_customer_id`, then `has_book`, then `subscription_status`). -/
def applyStripe (upd : StripeUpdates) (u : User) : User :=
  let u1 := match upd.stripe_customer_id with
    | some c => { u with stripe_customer_id := some c }
    | none => u
  let u2 := match upd.has_book with
    | some b => { u1 with has_book := b }
    | none => u1
  match upd.subscription_status with
  | some s => { u2 with subscription_status := s }
  | none => u2

/-- State effect of `updateUserStripe` from `src/db/index.js`: each supplied
field is written by its own `UPDATE users SET f = v WHERE id = x`. -/
def updateUserStripeState (id : Nat) (upd : StripeUpdates) (db : Store) : Store :=
  let db1 := match upd.stripe_customer_id with
    | some c => List.map (fun u => if u.id = id then { u with stripe_customer_id := some c } else u) db
    | none => db
  let db2 := match upd.has_book with
    | some b => List.map (fun u => if u.id = id then { u with has_book := b } else u) db1
    | none => db1
  match upd.subscription_status with
  | some s => List.map (fun u => if u.id = id then { u with subscription_status := s } else u) db2
  | none => db2

/-- A Stripe checkout session as inspected by the handlers: the
`metadata.user_id` field after `parseInt` (`none` for missing or
unparsable, i.e. NaN), `metadata.type`, and the fields consulted by the
paid test of `GET /api/stripe/checkout-success`. -/
structure CheckoutSession where
  metadata_user_id : Option Nat
  metadata_type : Option String
  customer : Option String
  payment_status : String
  mode : String
  subscription : Option String
deriving Repr, DecidableEq

/-- JavaScript truthiness of the parsed `userId` (`!userId` rejects both
NaN and 0). -/
def userIdTruthy : Option Nat → Bool
  | some n => n ≠ 0
  | none => false

/-- The `updates` object built identically by the webhook's
`checkout.session.completed` branch and by the redirect callback in
`src/routes/stripe.js`. -/
def checkoutUpdates (s : CheckoutSession) : StripeUpdates :=
  { stripe_customer_id := s.customer,
    has_book := if s.metadata_type = some "book" then some true else none,
    subscription_status := if s.metadata_type = some "premium" then some "premium" else none }

/-- Store effect of the webhook's `checkout.session.completed` branch:
skip when `!userId`, otherwise `updateUserStripe(userId, updates)`. -/
def handleCheckoutCompleted (s : CheckoutSession) (db : Store) : Store :=
  match s.metadata_user_id with
  | none => db
  | some uid =>
      if uid = 0 then db
      else updateUserStripeState uid (checkoutUpdates s) db

/-- The paid test of `GET /api/stripe/checkout-success`: an explicit paid
marker, or in subscription mode the presence of a subscription reference. -/
def sessionIsPaid (s : CheckoutSession) : Bool :=
  s.payment_status = "paid" || (s.mode = "subscription" && s.subscription.isSome)

/-- Store effect of `GET /api/stripe/checkout-success`
(`src/routes/stripe.js`): update only when the session is paid, the
metadata user id is truthy, and at least one update field was set. -/
def checkoutSuccessState (s : CheckoutSession) (db : Store) : Store :=
  match s.metadata_user_id with
  | none => db
  | some uid =>
      if sessionIsPaid s && uid ≠ 0 then
        let upd := checkoutUpdates s
        if upd.stripe_customer_id.isSome || upd.has_book.isSome || upd.subscription_status.isSome
        then updateUserStripeState uid upd db
        else db
      else db

/-- Store effect of the webhook's `customer.subscription.deleted` branch:
`UPDATE users SET subscription_status = 'free' WHERE stripe_customer_id = c`. -/
def handleSubscriptionDeleted (c : String) (db : Store) : Store :=
  List.map (fun u =>
    if u.stripe_customer_id = some c then { u with subscription_status := "free" } else u) db

/-- Tier computed by the webhook's `customer.subscription.updated` branch
from the event's own status field. -/
def tierOfStatus (st : String) : String :=
  if st = "active" || st = "trialing" then "premium" else "free"

/-- Store effect of the webhook's `customer.subscription.updated` branch:
write the status-derived tier to every row matching the customer reference. -/
def handleSubscriptionUpdated (c st : String) (db : Store) : Store :=
  List.map (fun u =>
    if u.stripe_customer_id = some c then { u with subscription_status := tierOfStatus st } else u) db

/-- A verified webhook event, as dispatched by the `switch` in
`stripeWebhook` (`src/routes/stripe.js`). -/
inductive StripeEvent where
  | checkoutCompleted (s : CheckoutSession)
  | subscriptionDeleted (customer : String)
  | subscriptionUpdated (customer : String) (status : String)
  | invoicePaymentFailed (customer : String)
  | unrecognized
deriving Repr, DecidableEq

/-- Store effect of the event dispatch: `invoice.payment_failed` is logged
only, unrecognized event kinds fall through the `switch`. -/
def applyStripeEvent (ev : StripeEvent) (db : Store) : Store :=
  match ev with
  | .checkoutCompleted s => handleCheckoutCompleted s db
  | .subscriptionDeleted c => handleSubscriptionDeleted c db
  | .subscriptionUpdated c st => handleSubscriptionUpdated c st db
  | .invoicePaymentFailed _ => db
  | .unrecognized => db

/-- `POST /api/stripe/webhook` (`stripeWebhook` in `src/routes/stripe.js`):
500 when `STRIPE_WEBHOOK_SECRET` is unset, 400 when
`stripe.webhooks.constructEvent` rejects the signature (modelled by the
boolean `sigOk`), otherwise the event is applied and 200 acknowledged.
Handler errors are swallowed and still acknowledged, so the pure model has
no error branch after verification. -/
def stripeWebhook (secretConfigured sigOk : Bool) (ev : StripeEvent) (db : Store) :
    Nat × Store :=
  if !secretConfigured then (500, db)
  else if !sigOk then (400, db)
  else (200, applyStripeEvent ev db)

/-- The request's session token after `getTokenFromRequest` and
`jwt.verify`: absent, failing verification (bad signature / expired /
malformed), or verified with its embedded claims. -/
inductive Token where
  | missing
  | invalid
  | valid (id : Nat) (is_admin : Bool)
deriving Repr, DecidableEq

/-- Outcome of the admin gate. -/
inductive GateResult where
  | denied (status : Nat) (error : String)
  | granted (id : Nat)
deriving Repr, DecidableEq

/-- `requireAdmin` middleware from `src/routes/admin.js`: 401 without a
token, 401 when `jwt.verify` throws, otherwise trust a true embedded
`is_admin` claim and fall back to the live store record when it is false;
403 when neither grants admin. -/
def requireAdmin (tok : Token) (db : Store) : GateResult :=
  match tok with
  | .missing => .denied 401 "Not authenticated"
  | .invalid => .denied 401 "Invalid or expired session"
  | .valid id claimAdmin =>
      let isAdmin :=
        if claimAdmin then true
        else match findById db id with
          | some u => u.is_admin
          | none => false
      if isAdmin then .granted id
      else .denied 403 "Admin access required"

/-- `PATCH /api/admin/users/:id` (`src/routes/admin.js`), after the admin
gate: validate `subscription_status`, call `updateUser`, and map a null
result to 404. The result is the HTTP status with the `error` body field. -/
def adminPatchUser (id : Nat) (body : AdminUpdate) (db : Store) :
    (Nat × Option String) × Store :=
  match body.subscription_status with
  | some s =>
      if s = "free" || s = "premium" then
        let r := updateUser id body db
        match r.1 with
        | none => ((404, some "User not found"), r.2)
        | some _ => ((200, none), r.2)
      else ((400, some "subscription_status must be \"free\" or \"premium\""), db)
  | none =>
      let r := updateUser id body db
      match r.1 with
      | none => ((404, some "User not found"), r.2)
      | some _ => ((200, none), r.2)

/-- Local part of an email (`email.split('@')[0]`). -/
def localPart (e : String) : String :=
  (e.splitOn "@").headD ""

/-- JS `name || email.split('@')[0]` default for the display name. -/
def signupName (name : Option String) (e : String) : String :=
  match name with
  | some n => if n = "" then localPart e else n
  | none => localPart e

/-- Result of `POST /api/auth/email/signup`: an error status with its
`error` body field, or 201 with the created row. -/
inductive SignupResult where
  | err (status : Nat) (error : String)
  | created (u : User)
deriving Repr, DecidableEq

/-- `POST /api/auth/email/signup` (`src/routes/auth.js`): required-field
check, then the 8-character password minimum, then the duplicate-email
check against `getUserByEmail`, then `createEmailUser` with a bcrypt hash
(modelled as an abstract `hash` function). `maybeGrantAdmin` only flips
`is_admin` on the created row and is applied by the caller model below. -/
def emailSignup (db : Store) (email password name : Option String)
    (hash : String → String) (freshId now : Nat) : SignupResult × Store :=
  if !(strTruthy email) || !(strTruthy password) then
    (.err 400 "Email and password are required", db)
  else
    let e := email.getD ""
    let p := password.getD ""
    if p.length < 8 then
      (.err 400 "Password must be at least 8 characters", db)
    else
      match List.find? (fun u => u.email = e) db with
      | some _ => (.err 409 "An account with that email already exists", db)
      | none =>
          let u := createEmailUser e (signupName name e) (hash p) freshId now
          (.created u, db ++ [u])

/-- Result of `POST /api/auth/email/signin`: an error status with its
`error` body field, or success with the signed-in user's id. -/
inductive SigninResult where
  | err (status : Nat) (error : String)
  | ok (userId : Nat)
deriving Repr, DecidableEq

/-- `POST /api/auth/email/signin` (`src/routes/auth.js`): required-field
check, then `getUserByEmail`; `!user || !user.password_hash` (a NULL or
empty hash is falsy) and a failed `bcrypt.compare` (modelled as the
abstract boolean `compare`) all answer 401 with the same body. -/
def emailSignin (db : Store) (compare : String → String → Bool)
    (email password : Option String) : SigninResult :=
  if !(strTruthy email) || !(strTruthy password) then
    .err 400 "Email and password are required"
  else
    match List.find? (fun u => u.email = email.getD "") db with
    | none => .err 401 "Invalid email or password"
    | some u =>
        match u.password_hash with
        | none => .err 401 "Invalid email or password"
        | some h =>
            if h = "" then .err 401 "Invalid email or password"
            else if compare (password.getD "") h then .ok u.id
            else .err 401 "Invalid email or password"

/-- A `res.json` reply from the tracking routes: HTTP status (200 unless
`res.status` was called, which these handlers never do) and the `ok` body
field. -/
structure TrackResp where
  status : Nat
  ok : Bool
deriving Repr, DecidableEq

/-- Body of the `try` block of `POST /api/track/pageview`
(`src/routes/track.js`): destructuring a malformed body or a rejected
`logPageView` insert throws (modelled as `Except.error`); bot user-agents
are acknowledged without persisting. -/
def pageviewAttempt (bodyOk bot logOk : Bool) : Except String TrackResp :=
  if !bodyOk then .error "malformed request body"
  else if bot then .ok ⟨200, true⟩
  else if !logOk then .error "page_views insert failed"
  else .ok ⟨200, true⟩

/-- `POST /api/track/pageview` with its `catch`: any thrown error is
answered with `res.json` so the reply still carries status 200. -/
def pageviewHandler (bodyOk bot logOk : Bool) : TrackResp :=
  match pageviewAttempt bodyOk bot logOk with
  | .ok r => r
  | .error _ => ⟨200, false⟩

/-- Body of the `try` block of `POST /api/track/click`, same shape as the
pageview handler around `logClickEvent`. -/
def clickAttempt (bodyOk bot logOk : Bool) : Except String TrackResp :=
  if !bodyOk then .error "malformed request body"
  else if bot then .ok ⟨200, true⟩
  else if !logOk then .error "click_events insert failed"
  else .ok ⟨200, true⟩

/-- `POST /api/track/click` with its `catch`. -/
def clickHandler (bodyOk bot logOk : Bool) : TrackResp :=
  match clickAttempt bodyOk bot logOk with
  | .ok r => r
  | .error _ => ⟨200, false⟩

/-! Generic list lemmas used by several claims. -/

theorem map_fixed_idem {α : Type} (f : α → α) (hf : ∀ a, f (f a) = f a) (l : List α) :
    List.map f (List.map f l) = List.map f l := by
  induction l with
  | nil => rfl
  | cons a t ih => simp [List.map_cons, hf a, ih]

theorem find?_map_pres {α : Type} (f : α → α) (p : α → Bool)
    (hp : ∀ a, p (f a) = p a) (l : List α) :
    List.find? p (List.map f l) = Option.map f (List.find? p l) := by
  induction l with
  | nil => rfl
  | cons a t ih =>
    by_cases h : p a = true
    · simp [List.find?_cons, hp a, h]
    · simp only [List.map_cons, List.find?_cons, hp a]
      simp [h, ih]

theorem countEmail_map (g : User → User) (hg : ∀ u, (g u).email = u.email)
    (db : Store) (e : String) :
    countEmail (List.map g db) e = countEmail db e := by
  induction db with
  | nil => rfl
  | cons a t ih =>
    by_cases h : a.email = e
    · simp [countEmail, List.filter_cons, hg a, h] at *
      exact ih
    · simp [countEmail, List.filter_cons, hg a, h] at *
      exact ih

theorem countEmail_append (db1 db2 : Store) (e : String) :
    countEmail (db1 ++ db2) e = countEmail db1 e + countEmail db2 e := by
  simp [countEmail, List.filter_append]

theorem countEmail_zero_of_find?_none (db : Store) (e : String)
    (h : List.find? (fun u => u.email = e) db = none) : countEmail db e = 0 := by
  have hall := List.find?_eq_none.mp h
  simp only [countEmail, List.length_eq_zero, List.filter_eq_nil_iff]
  intro a ha
  exact hall a ha

theorem countEmail_pos_of_find?_some (db : Store) (e : String) (u : User)
    (h : List.find? (fun v => v.email = e) db = some u) : 1 ≤ countEmail db e := by
  have hmem := List.mem_of_find?_eq_some h
  have hp := List.find?_some h
  have : u ∈ List.filter (fun v => v.email = e) db :=
    List.mem_filter.mpr ⟨hmem, hp⟩
  exact List.length_pos_of_mem this

/-- C9: every pageview or click tracking request — whatever the body parse,
bot classification, or store-write outcome — is answered with HTTP 200
(a `res.json` reply), never an error status or a propagated exception. -/
theorem c9_tracking_never_errors (bodyOk bot logOk : Bool) :
    (pageviewHandler bodyOk bot logOk).status = 200 ∧
    (clickHandler bodyOk bot logOk).status = 200 := by
  cases bodyOk <;> cases bot <;> cases logOk <;> exact ⟨rfl, rfl⟩

/-- C6: with the webhook secret configured, a request whose Stripe
signature fails verification is answered 400 and the store is returned
unchanged — no event payload is acted on. -/
theorem c6_unverified_webhook_rejected (ev : StripeEvent) (db : Store) :
    stripeWebhook true false ev db = (400, db) := rfl

/-- C10: an admin PATCH whose body supplies none of
`subscription_status` / `is_admin` / `has_book` answers
404 "User not found" even when the user id exists, and leaves the store
unchanged, because `updateUser` returns null when no field is supplied. -/
theorem c10_patch_no_fields (db : Store) (uid : Nat)
    (_hex : (findById db uid).isSome = true) :
    adminPatchUser uid ⟨none, none, none⟩ db = ((404, some "User not found"), db) := by
  rfl

def c10User : User :=
  { id := 7, email := "c10@example.com", name := none, picture := none,
    provider := "email", provider_id := "c10@example.com",
    password_hash := some "h", subscription_status := "free",
    is_admin := false, has_book := false, stripe_customer_id := none,
    created_at := 0, last_login := 0 }

theorem c10_patch_no_fields_witness :
    (findById [c10User] 7).isSome = true ∧
    adminPatchUser 7 ⟨none, none, none⟩ [c10User] = ((404, some "User not found"), [c10User]) :=
  ⟨rfl, c10_patch_no_fields [c10User] 7 rfl⟩

/-- C2: the admin gate grants access for a valid token whose embedded
admin claim is false when the live store record is admin; a request with
no valid token answers 401; a valid token for a user who is admin neither
in the token nor in the store answers 403. -/
theorem c2_admin_gate (db : Store) (uid uid2 : Nat) (u : User)
    (hfind : findById db uid = some u) (hadm : u.is_admin = true)
    (hnot : ∀ v, findById db uid2 = some v → v.is_admin = false) :
    requireAdmin (Token.valid uid false) db = .granted uid ∧
    requireAdmin Token.missing db = .denied 401 "Not authenticated" ∧
    requireAdmin Token.invalid db = .denied 401 "Invalid or expired session" ∧
    requireAdmin (Token.valid uid2 false) db = .denied 403 "Admin access required" := by
  refine ⟨?_, rfl, rfl, ?_⟩
  · simp [requireAdmin, hfind, hadm]
  · unfold requireAdmin
    cases h2 : findById db uid2 with
    | none => simp [h2]
    | some v => simp [h2, hnot v h2]

def c2AdminUser : User :=
  { id := 1, email := "root@example.com", name := none, picture := none,
    provider := "google", provider_id := "g1",
    password_hash := none, subscription_status := "free",
    is_admin := true, has_book := false, stripe_customer_id := none,
    created_at := 0, last_login := 0 }

def c2PlainUser : User :=
  { id := 2, email := "plain@example.com", name := none, picture := none,
    provider := "google", provider_id := "g2",
    password_hash := none, subscription_status := "free",
    is_admin := false, has_book := false, stripe_customer_id := none,
    created_at := 0, last_login := 0 }

theorem c2_admin_gate_witness :
    requireAdmin (Token.valid 1 false) [c2AdminUser, c2PlainUser] = .granted 1 ∧
    requireAdmin Token.missing [c2AdminUser, c2PlainUser] = .denied 401 "Not authenticated" ∧
    requireAdmin Token.invalid [c2AdminUser, c2PlainUser] = .denied 401 "Invalid or expired session" ∧
    requireAdmin (Token.valid 2 false) [c2AdminUser, c2PlainUser] = .denied 403 "Admin access required" :=
  c2_admin_gate [c2AdminUser, c2PlainUser] 1 2 c2AdminUser rfl rfl
    (by intro v hv; cases hv; rfl)

theorem applyStripe_id_eq (upd : StripeUpdates) (u : User) :
    (applyStripe upd u).id = u.id := by
  obtain ⟨sc, hb, ss⟩ := upd
  cases sc <;> cases hb <;> cases ss <;> rfl

theorem applyStripe_idem (upd : StripeUpdates) (u : User) :
    applyStripe upd (applyStripe upd u) = applyStripe upd u := by
  obtain ⟨sc, hb, ss⟩ := upd
  cases sc <;> cases hb <;> cases ss <;> rfl

theorem applyStripe_has_book (upd : StripeUpdates) (u : User)
    (h : upd.has_book = some true) : (applyStripe upd u).has_book = true := by
  obtain ⟨sc, hb, ss⟩ := upd
  cases hb with
  | none => simp at h
  | some b =>
      simp only [Option.some.injEq] at h
      subst h
      cases sc <;> cases ss <;> rfl

theorem updateUserStripeState_eq_map (id : Nat) (upd : StripeUpdates) (db : Store) :
    updateUserStripeState id upd db
      = List.map (fun u => if u.id = id then applyStripe upd u else u) db := by
  obtain ⟨sc, hb, ss⟩ := upd
  cases sc <;> cases hb <;> cases ss <;>
    simp only [updateUserStripeState, List.map_map] <;>
    first
      | (symm; apply List.map_congr_left; intro u _;
         by_cases h : u.id = id <;> simp [applyStripe, h])
      | (simp [applyStripe, ite_self])

theorem updateUserStripeState_idem (id : Nat) (upd : StripeUpdates) (db : Store) :
    updateUserStripeState id upd (updateUserStripeState id upd db)
      = updateUserStripeState id upd db := by
  simp only [updateUserStripeState_eq_map]
  apply map_fixed_idem
  intro u
  by_cases h : u.id = id
  · simp [h, applyStripe_id_eq, applyStripe_idem]
  · simp [h]

theorem findById_updateUserStripeState (id : Nat) (upd : StripeUpdates) (db : Store) :
    findById (updateUserStripeState id upd db) id
      = Option.map (fun u => if u.id = id then applyStripe upd u else u) (findById db id) := by
  rw [updateUserStripeState_eq_map]
  unfold findById
  apply find?_map_pres
  intro u
  by_cases h : u.id = id <;> simp [h, applyStripe_id_eq]

/-- C1: handling `checkout.session.completed` for a "book" purchase is
idempotent — a second delivery of the same session (via the webhook or via
the redirect callback) leaves the store exactly as one delivery did — and
the purchasing user's `has_book` is true after handling, not toggled. -/
theorem c1_book_checkout_idempotent (s : CheckoutSession) (db : Store) (uid : Nat) (u : User)
    (hty : s.metadata_type = some "book")
    (huid : s.metadata_user_id = some uid) (hpos : uid ≠ 0)
    (hpaid : sessionIsPaid s = true)
    (hex : findById db uid = some u) :
    handleCheckoutCompleted s (handleCheckoutCompleted s db) = handleCheckoutCompleted s db ∧
    Option.map User.has_book (findById (handleCheckoutCompleted s db) uid) = some true ∧
    checkoutSuccessState s (checkoutSuccessState s db) = checkoutSuccessState s db ∧
    Option.map User.has_book (findById (checkoutSuccessState s db) uid) = some true := by
  have hbook : (checkoutUpdates s).has_book = some true := by
    simp [checkoutUpdates, hty]
  have hcc : ∀ d : Store, handleCheckoutCompleted s d = updateUserStripeState uid (checkoutUpdates s) d := by
    intro d
    unfold handleCheckoutCompleted
    rw [huid]
    simp [hpos]
  have hcs : ∀ d : Store, checkoutSuccessState s d = updateUserStripeState uid (checkoutUpdates s) d := by
    intro d
    unfold checkoutSuccessState
    rw [huid]
    simp [hpos, hpaid, hbook]
  have hidmatch : u.id = uid := by
    have := List.find?_some hex
    simpa using this
  have hbval : ∀ d : Store, findById d uid = some u →
      Option.map User.has_book (findById (updateUserStripeState uid (checkoutUpdates s) d) uid) = some true := by
    intro d hd
    rw [findById_updateUserStripeState, hd]
    simp [hidmatch, applyStripe_has_book _ _ hbook]
  refine ⟨?_, ?_, ?_, ?_⟩
  · simp only [hcc]
    exact updateUserStripeState_idem uid (checkoutUpdates s) db
  · rw [hcc]
    exact hbval db hex
  · simp only [hcs]
    exact updateUserStripeState_idem uid (checkoutUpdates s) db
  · rw [hcs]
    exact hbval db hex

def c1Session : CheckoutSession :=
  { metadata_user_id := some 5, metadata_type := some "book",
    customer := some "cus_c1", payment_status := "paid",
    mode := "payment", subscription := none }

def c1User : User :=
  { id := 5, email := "buyer@example.com", name := none, picture := none,
    provider := "google", provider_id := "g5",
    password_hash := none, subscription_status := "free",
    is_admin := false, has_book := false, stripe_customer_id := none,
    created_at := 0, last_login := 0 }

theorem c1_book_checkout_idempotent_witness :
    handleCheckoutCompleted c1Session (handleCheckoutCompleted c1Session [c1User])
      = handleCheckoutCompleted c1Session [c1User] ∧
    Option.map User.has_book (findById (handleCheckoutCompleted c1Session [c1User]) 5) = some true ∧
    checkoutSuccessState c1Session (checkoutSuccessState c1Session [c1User])
      = checkoutSuccessState c1Session [c1User] ∧
    Option.map User.has_book (findById (checkoutSuccessState c1Session [c1User]) 5) = some true :=
  c1_book_checkout_idempotent c1Session [c1User] 5 c1User rfl rfl (by decide) rfl rfl

/-- C3: `customer.subscription.updated` writes the tier derived from the
event's own status — premium for active/trialing, free otherwise — to every
user matching the customer reference, and applying a prior
`customer.subscription.deleted` for that customer first does not change
what the updated-event handler produces. -/
theorem c3_subscription_updated (c st : String) (db : Store) (u : User)
    (hmem : u ∈ handleSubscriptionUpdated c st db)
    (hcust : u.stripe_customer_id = some c) :
    u.subscription_status = tierOfStatus st ∧
    ((st = "active" ∨ st = "trialing") → tierOfStatus st = "premium") ∧
    ((st ≠ "active" ∧ st ≠ "trialing") → tierOfStatus st = "free") ∧
    handleSubscriptionUpdated c st (handleSubscriptionDeleted c db)
      = handleSubscriptionUpdated c st db := by
  refine ⟨?_, ?_, ?_, ?_⟩
  · unfold handleSubscriptionUpdated at hmem
    obtain ⟨v, hv, heq⟩ := List.mem_map.mp hmem
    by_cases h : v.stripe_customer_id = some c
    · simp [h] at heq
      rw [← heq]
    · simp [h] at heq
      rw [← heq] at hcust
      exact absurd hcust h
  · rintro (h | h) <;> simp [tierOfStatus, h]
  · rintro ⟨h1, h2⟩
    simp [tierOfStatus, h1, h2]
  · unfold handleSubscriptionUpdated handleSubscriptionDeleted
    rw [List.map_map]
    apply List.map_congr_left
    intro v _
    by_cases h : v.stripe_customer_id = some c <;> simp [Function.comp, h]

def c3Sub : User :=
  { id := 9, email := "sub@example.com", name := none, picture := none,
    provider := "google", provider_id := "g9",
    password_hash := none, subscription_status := "free",
    is_admin := false, has_book := false, stripe_customer_id := some "cus_3",
    created_at := 0, last_login := 0 }

theorem c3_subscription_updated_witness :
    ({ c3Sub with subscription_status := "premium" } : User).subscription_status
        = tierOfStatus "active" ∧
    (("active" = "active" ∨ "active" = "trialing") → tierOfStatus "active" = "premium") ∧
    (("active" ≠ "active" ∧ "active" ≠ "trialing") → tierOfStatus "active" = "free") ∧
    handleSubscriptionUpdated "cus_3" "active" (handleSubscriptionDeleted "cus_3" [c3Sub])
      = handleSubscriptionUpdated "cus_3" "active" [c3Sub] :=
  c3_subscription_updated "cus_3" "active" [c3Sub]
    { c3Sub with subscription_status := "premium" } (by decide) rfl

theorem refreshRow_email (p : OAuthProfile) (now : Nat) (u : User) :
    (refreshRow p now u).email = u.email := by
  unfold refreshRow
  by_cases h : u.email = p.email <;> simp [h]

theorem refreshRow_id (p : OAuthProfile) (now : Nat) (u : User) :
    (refreshRow p now u).id = u.id := by
  unfold refreshRow
  by_cases h : u.email = p.email <;> simp [h]

/-- C4: two successful external authentications with the same email (any
provider combination) return rows with the same user id, and the users
table holds exactly one row for that email afterward, given the UNIQUE
constraint held before. -/
theorem c4_email_is_uniqueness_key (db : Store) (p1 p2 : OAuthProfile)
    (id1 id2 t1 t2 : Nat)
    (hsame : p2.email = p1.email)
    (huniq : countEmail db p1.email ≤ 1) :
    (upsertUser p2 id2 t2 (upsertUser p1 id1 t1 db).2).1.id
      = (upsertUser p1 id1 t1 db).1.id ∧
    countEmail (upsertUser p2 id2 t2 (upsertUser p1 id1 t1 db).2).2 p1.email = 1 := by
  have hpres : ∀ u : User,
      (decide ((refreshRow p1 t1 u).email = p2.email)) = decide (u.email = p2.email) := by
    intro u
    rw [refreshRow_email]
  cases h1 : List.find? (fun u => u.email = p1.email) db with
  | some u =>
      have hfind2 : List.find? (fun v => v.email = p2.email) (List.map (refreshRow p1 t1) db)
          = some (refreshRow p1 t1 u) := by
        rw [find?_map_pres (refreshRow p1 t1) _ hpres]
        rw [hsame, h1]
        rfl
      have hcount1 : countEmail (List.map (refreshRow p1 t1) db) p1.email = countEmail db p1.email :=
        countEmail_map _ (refreshRow_email p1 t1) db p1.email
      constructor
      · simp only [upsertUser, h1, hfind2]
        rw [refreshRow_id, refreshRow_id]
      · simp only [upsertUser, h1, hfind2]
        have hcount2 : countEmail (List.map (refreshRow p2 t2)
              (List.map (refreshRow p1 t1) db)) p1.email = countEmail db p1.email := by
          rw [countEmail_map _ (refreshRow_email p2 t2), hcount1]
        rw [hcount2]
        have hge : 1 ≤ countEmail db p1.email := countEmail_pos_of_find?_some db p1.email u h1
        omega
  | none =>
      have hz : countEmail db p1.email = 0 := countEmail_zero_of_find?_none db p1.email h1
      have hfresh : (freshOAuthUser p1 id1 t1).email = p1.email := rfl
      have hfind2 : List.find? (fun v => v.email = p2.email) (db ++ [freshOAuthUser p1 id1 t1])
          = some (freshOAuthUser p1 id1 t1) := by
        rw [List.find?_append]
        rw [hsame, h1]
        simp [hfresh]
      constructor
      · simp only [upsertUser, h1, hfind2]
        rw [refreshRow_id]
      · simp only [upsertUser, h1, hfind2]
        rw [countEmail_map _ (refreshRow_email p2 t2), countEmail_append, hz]
        simp [countEmail, hfresh]

def c4Google : OAuthProfile :=
  { email := "pat@example.com", name := some "Pat", picture := some "p.png",
    provider := "google", provider_id := "g-pat" }

def c4Apple : OAuthProfile :=
  { email := "pat@example.com", name := some "Pat A", picture := none,
    provider := "apple", provider_id := "a-pat" }

theorem c4_email_is_uniqueness_key_witness :
    (upsertUser c4Apple 12 2 (upsertUser c4Google 11 1 []).2).1.id
      = (upsertUser c4Google 11 1 []).1.id ∧
    countEmail (upsertUser c4Apple 12 2 (upsertUser c4Google 11 1 []).2).2
      "pat@example.com" = 1 :=
  c4_email_is_uniqueness_key [] c4Google c4Apple 11 12 1 2 rfl (by decide)

/-- C5: when an external authentication upserts an email that already
exists, every row is related to its old value by: id, email, provider,
provider_id, password_hash, subscription_status, is_admin, has_book,
stripe_customer_id and created_at are unchanged; only the matching row's
name, picture and last_login are written; non-matching rows are untouched. -/
theorem c5_upsert_refresh_frame (db : Store) (p : OAuthProfile) (fid t : Nat)
    (hex : (List.find? (fun u => u.email = p.email) db).isSome = true) :
    List.Forall₂ (fun u v =>
      v.id = u.id ∧ v.email = u.email ∧ v.provider = u.provider ∧
      v.provider_id = u.provider_id ∧ v.password_hash = u.password_hash ∧
      v.subscription_status = u.subscription_status ∧ v.is_admin = u.is_admin ∧
      v.has_book = u.has_book ∧ v.stripe_customer_id = u.stripe_customer_id ∧
      v.created_at = u.created_at ∧
      (u.email = p.email → v.name = p.name ∧ v.picture = p.picture ∧ v.last_login = t) ∧
      (u.email ≠ p.email → v = u))
      db (upsertUser p fid t db).2 := by
  cases h : List.find? (fun u => u.email = p.email) db with
  | none => rw [h] at hex; simp at hex
  | some u =>
      simp only [upsertUser, h]
      clear h hex u
      induction db with
      | nil => exact List.Forall₂.nil
      | cons a tl ih =>
          refine List.Forall₂.cons ?_ ih
          by_cases ha : a.email = p.email <;> simp [refreshRow, ha]

def c5Existing : User :=
  { id := 3, email := "kim@example.com", name := some "Old", picture := none,
    provider := "google", provider_id := "g3",
    password_hash := none, subscription_status := "premium",
    is_admin := true, has_book := true, stripe_customer_id := some "cus_k",
    created_at := 10, last_login := 10 }

def c5Profile : OAuthProfile :=
  { email := "kim@example.com", name := some "Kim", picture := some "k.png",
    provider := "apple", provider_id := "a3" }

theorem c5_upsert_refresh_frame_witness :
    List.Forall₂ (fun u v =>
      v.id = u.id ∧ v.email = u.email ∧ v.provider = u.provider ∧
      v.provider_id = u.provider_id ∧ v.password_hash = u.password_hash ∧
      v.subscription_status = u.subscription_status ∧ v.is_admin = u.is_admin ∧
      v.has_book = u.has_book ∧ v.stripe_customer_id = u.stripe_customer_id ∧
      v.created_at = u.created_at ∧
      (u.email = c5Profile.email → v.name = c5Profile.name ∧ v.picture = c5Profile.picture ∧ v.last_login = 20) ∧
      (u.email ≠ c5Profile.email → v = u))
      [c5Existing] (upsertUser c5Profile 4 20 [c5Existing]).2 :=
  c5_upsert_refresh_frame [c5Existing] c5Profile 4 20 rfl

/-- C7: every local sign-in failure — unknown email, a user row without a
usable password hash, or a failed bcrypt comparison — answers 401 with the
identical error body, never revealing which half of the pair was wrong. -/
theorem c7_signin_uniform_failure (db : Store) (compare : String → String → Bool)
    (e pw : String) (he : e ≠ "") (hpw : pw ≠ "")
    (hfail : findByEmail db e = none
      ∨ (∃ u, findByEmail db e = some u ∧ (u.password_hash = none ∨ u.password_hash = some ""))
      ∨ (∃ u h, findByEmail db e = some u ∧ u.password_hash = some h ∧ compare pw h = false)) :
    emailSignin db compare (some e) (some pw) = .err 401 "Invalid email or password" := by
  unfold emailSignin
  simp only [strTruthy, he, hpw]
  simp only [findByEmail] at hfail
  rcases hfail with hnone | ⟨u, hu, hph⟩ | ⟨u, h, hu, hph, hcmp⟩
  · simp [hnone]
    exact ⟨he, hpw⟩
  · rcases hph with hph | hph <;> simp [hu, hph] <;> exact ⟨he, hpw⟩
  · by_cases hempty : h = ""
    · simp [hu, hph, hempty]
      exact ⟨he, hpw⟩
    · simp [hu, hph, hempty, hcmp]
      exact ⟨he, hpw⟩

def c7Compare : String → String → Bool := fun _ _ => false

theorem c7_signin_uniform_failure_witness :
    emailSignin [] c7Compare (some "ghost@example.com") (some "password123")
      = .err 401 "Invalid email or password" :=
  c7_signin_uniform_failure [] c7Compare "ghost@example.com" "password123"
    (by decide) (by decide) (Or.inl rfl)

/-- C8 counterexample: a signup request whose email already exists but
whose password is 7 characters is answered 400 (the length check runs
first), not the 409 Conflict the claim requires for every
existing-email request. -/
def c8Existing : User := createEmailUser "a@x.com" "a" "HASH" 1 0

theorem c8_counterexample :
    countEmail [c8Existing] "a@x.com" = 1 ∧
    (emailSignup [c8Existing] (some "a@x.com") (some "1234567") none (fun s => s) 2 1).1
      = .err 400 "Password must be at least 8 characters" ∧
    (emailSignup [c8Existing] (some "a@x.com") (some "1234567") none (fun s => s) 2 1).1
      ≠ .err 409 "An account with that email already exists" := by
  refine ⟨rfl, rfl, ?_⟩
  decide

/-- C8 (amended): registration with an existing email and a password
passing the length minimum answers 409 Conflict; any registration with a
password shorter than 8 characters answers 400 InvalidInput (the length
check precedes the duplicate check); in both failure cases the store is
unchanged — no row is created. -/
theorem c8_signup_failures (db : Store) (e e2 pw1 pw2 : String)
    (name1 name2 : Option String) (hash : String → String) (fid now : Nat) (u : User)
    (he : e ≠ "") (hpw1 : pw1 ≠ "") (h8 : 8 ≤ pw1.length)
    (hex : List.find? (fun v => v.email = e) db = some u)
    (he2 : e2 ≠ "") (hpw2 : pw2 ≠ "") (hshort : pw2.length < 8) :
    emailSignup db (some e) (some pw1) name1 hash fid now
      = (.err 409 "An account with that email already exists", db) ∧
    emailSignup db (some e2) (some pw2) name2 hash fid now
      = (.err 400 "Password must be at least 8 characters", db) := by
  constructor
  · unfold emailSignup
    simp only [strTruthy, he, hpw1]
    simp [hex, Nat.not_lt.mpr h8]
    exact ⟨he, hpw1⟩
  · unfold emailSignup
    simp only [strTruthy, he2, hpw2]
    simp [hshort]
    exact ⟨he2, hpw2⟩

theorem c8_signup_failures_witness :
    emailSignup [c8Existing] (some "a@x.com") (some "password123") none (fun s => s) 2 1
      = (.err 409 "An account with that email already exists", [c8Existing]) ∧
    emailSignup [c8Existing] (some "b@x.com") (some "1234567") none (fun s => s) 2 1
      = (.err 400 "Password must be at least 8 characters", [c8Existing]) :=
  c8_signup_failures [c8Existing] "a@x.com" "b@x.com" "password123" "1234567"
    none none (fun s => s) 2 1 c8Existing
    (by decide) (by decide) (by decide) rfl (by decide) (by decide) (by decide)
